import Mathlib

/-!
# Verification of `scrape_for_n8n.py` (TG-Work-Checker)

Shallow embedding of the single source file `src/scrape_for_n8n.py` and proofs
about it.  The embedding follows the Python source line by line:

* Python `str.strip()` is `pyStrip` (Unicode-whitespace trimming at both ends).
* Python `int(...)` applied to a string is `pyIntParse` (whitespace-tolerant,
  optional sign, decimal digits with single underscores between digits;
  `error` models the `ValueError` that the source catches and swallows).
  CPython also accepts non-ASCII Unicode decimal digits there; a stripped
  literal containing any non-ASCII character is answered `unmodelled` rather
  than guessed, so no theorem narrows `int()`'s success set.
* `urllib.parse.urlparse(...).path` is `pyUrlparsePath`, specialised to inputs
  that begin with `http://` or `https://` (the only inputs the source feeds
  it).  `urlparse` is *fallible*: CPython's `urlsplit` raises `ValueError`
  on a netloc with an unmatched bracket and applies further
  version-dependent netloc checks, so the model returns
  `ok`/`valueError`/`unmodelled`.  On success it removes tab/CR/LF
  characters, drops the scheme at the first colon, drops the `//netloc` up
  to the first of `/`, `?`, `#`, cuts the fragment at the first `#`, then
  the query at the first `?`, and finally splits `;params` off the last
  path segment.
* `parse_chat_identifier` (source lines 12-31) returns a `PyOutcome`: the
  `ValueError` that `urlparse` can raise is *not* caught by the source (its
  `try/except ValueError: pass` wraps only `int(parts[1])`) and propagates
  out as `raises`.
* Messages yielded by the collaborator's iterator are the structure `Msg`;
  datetimes are abstracted to integer timestamps ordered by `<`, which is
  all the source uses of them (comparison with the cutoff); `isinstance(msg,
  Message)` is the `isMessage` flag.
* The body of the `async for` loop (source lines 59-78) is `fetchRows`; the
  projection of one retained message (lines 67-78) is `projectRow`.
* The `try/except` around `get_entity` (lines 45-49) is `resolveEntityStep`,
  which records the performed network actions and the control-flow outcome.
-/

/-- Python Unicode whitespace, the character class trimmed by `str.strip()`
and tolerated by `int()`: TAB..CR, FS..US, SPACE, NEL, NBSP, OGHAM SPACE,
the U+2000..U+200A spaces, LS, PS, NNBSP, MMSP, IDEOGRAPHIC SPACE. -/
def isPySpace (c : Char) : Bool :=
  let n := c.toNat
  decide (9 ≤ n ∧ n ≤ 13) || decide (28 ≤ n ∧ n ≤ 31) || n == 32 || n == 133 ||
  n == 160 || n == 5760 || decide (8192 ≤ n ∧ n ≤ 8202) || n == 8232 ||
  n == 8233 || n == 8239 || n == 8287 || n == 12288

/-- Characters of `str.strip()`: drop whitespace from the front, then from
the back. -/
def stripChars (cs : List Char) : List Char :=
  List.rdropWhile isPySpace (cs.dropWhile isPySpace)

/-- Python `str.strip()` with no argument. -/
def pyStrip (s : String) : String :=
  String.mk (stripChars s.data)

/-- ASCII decimal digit test (`'0'..'9'`). -/
def pyIsDigit (c : Char) : Bool :=
  decide (48 ≤ c.toNat ∧ c.toNat ≤ 57)

/-- Numeric value of an ASCII digit character. -/
def digitVal (c : Char) : Nat :=
  c.toNat - 48

/-- Digits of a Python integer literal after the first digit: decimal digits
with single underscores allowed between two digits (CPython grammar for
`int()`), accumulating the value. -/
def pyDigitsTail : List Char → Nat → Option Nat
  | [], acc => some acc
  | '_' :: c :: rest, acc =>
    if pyIsDigit c then pyDigitsTail rest (10 * acc + digitVal c) else none
  | c :: rest, acc =>
    if pyIsDigit c then pyDigitsTail rest (10 * acc + digitVal c) else none

/-- An unsigned run of digits per the Python `int()` grammar: nonempty,
starts with a digit. -/
def pyDigitsParse : List Char → Option Nat
  | [] => none
  | c :: rest => if pyIsDigit c then pyDigitsTail rest (digitVal c) else none

/-- ASCII test, `str.isascii()` on one character. -/
def isAsciiChar (c : Char) : Bool :=
  decide (c.toNat ≤ 127)

/-- Outcome of Python `int(...)` on a string: the parsed value, a
`ValueError`, or `unmodelled` when the stripped literal contains a
non-ASCII character — CPython accepts every Unicode Nd digit there (e.g.
Arabic-Indic digits), which this embedding does not tabulate, so it
declines to decide instead of narrowing `int()`'s success set.  No theorem
below assumes anything about the `unmodelled` case. -/
inductive PyIntResult
  | ok (n : Int)
  | error
  | unmodelled
deriving DecidableEq

/-- Python `int(s)` on a string: strip whitespace, optional single sign,
then decimal digits with single underscores between digits.  All-ASCII
stripped literals are decided exactly; any non-ASCII character makes the
verdict depend on the Unicode digit tables and is left undecided. -/
def pyIntParse (s : String) : PyIntResult :=
  let cs := (pyStrip s).data
  if cs.any (fun c => !isAsciiChar c) then PyIntResult.unmodelled
  else
    match cs with
    | '+' :: rest =>
      match pyDigitsParse rest with
      | some n => PyIntResult.ok (n : Int)
      | none => PyIntResult.error
    | '-' :: rest =>
      match pyDigitsParse rest with
      | some n => PyIntResult.ok (-(n : Int))
      | none => PyIntResult.error
    | rest =>
      match pyDigitsParse rest with
      | some n => PyIntResult.ok (n : Int)
      | none => PyIntResult.error

/-- The tuple test `identifier.startswith(("http://", "https://"))` from
source line 20. -/
def startsWithHttp (s : String) : Bool :=
  List.isPrefixOf "http://".data s.data || List.isPrefixOf "https://".data s.data

/-- CPython `urlsplit` removes all TAB, CR and LF characters from the URL
before parsing. -/
def removeUnsafeUrlChars (cs : List Char) : List Char :=
  cs.filter (fun c => !(c == '\t' || c == '\r' || c == '\n'))

/-- Drop everything up to and including the first colon: the scheme part of
`urlsplit` for inputs that begin with `http://` or `https://` (for those the
characters before the first colon always form a valid scheme). -/
def dropThroughColon : List Char → List Char
  | [] => []
  | c :: rest => if c == ':' then rest else dropThroughColon rest

/-- After the scheme: when the remainder begins with `//`, split off the
netloc, which extends to the first `/`, `?` or `#` (CPython `_splitnetloc`);
returns the netloc and the remaining characters. -/
def splitNetloc (cs : List Char) : List Char × List Char :=
  match cs with
  | '/' :: '/' :: rest =>
      (rest.takeWhile (fun c => !(c == '/' || c == '?' || c == '#')),
       rest.dropWhile (fun c => !(c == '/' || c == '?' || c == '#')))
  | _ => ([], cs)

/-- Cut the fragment: `url.split('#', 1)[0]`. -/
def stripFragment (cs : List Char) : List Char :=
  cs.takeWhile (fun c => !(c == '#'))

/-- Cut the query: `url.split('?', 1)[0]`. -/
def stripQuery (cs : List Char) : List Char :=
  cs.takeWhile (fun c => !(c == '?'))

/-- CPython `urlparse` `_splitparams`: when the path contains a `;`, the
params (everything from the first `;` after the last `/`, or from the first
`;` when there is no `/`) are split off the path. -/
def splitParamsLastSegment (cs : List Char) : List Char :=
  if cs.contains ';' then
    if cs.contains '/' then
      let revCs := cs.reverse
      let afterRev := revCs.takeWhile (fun c => !(c == '/'))
      let beforeRev := revCs.drop afterRev.length
      beforeRev.reverse ++ afterRev.reverse.takeWhile (fun c => !(c == ';'))
    else cs.takeWhile (fun c => !(c == ';'))
  else cs

/-- Outcome of `urllib.parse.urlparse(url).path`.  `urlparse` is *not* total:
CPython's `urlsplit` validates the netloc and raises `ValueError` — which the
source does not catch, since its `try/except ValueError` wraps only
`int(parts[1])`.  The three constructors:

* `ok path` — the parse succeeded and the path component is `path`;
* `valueError message` — `urlsplit` raised `ValueError(message)`;
* `unmodelled reason` — netloc shapes whose accept/raise verdict is
  CPython-version-dependent and is not decided by this embedding; no theorem
  below assumes anything about them. -/
inductive PyUrlparseResult
  | ok (path : String)
  | valueError (message : String)
  | unmodelled (reason : String)
deriving DecidableEq

/-- `urllib.parse.urlparse(url).path` for a `url` beginning with `http://`
or `https://`, including `urlsplit`'s netloc validation:

* a netloc containing exactly one of `[` and `]` raises
  `ValueError("Invalid IPv6 URL")` — present in every CPython version;
* a netloc containing both brackets has its bracketed host validated as an
  IPv6/IPvFuture address only on CPython 3.11+ (`_check_bracketed_host`):
  version-dependent, left undecided (`unmodelled`);
* a non-ASCII netloc is subject to the NFKC `_checknetloc` check (absent
  before the 3.6-era security releases, and requiring Unicode normalization
  tables): version-dependent, left undecided (`unmodelled`);
* an all-ASCII, bracket-free netloc passes `_checknetloc` immediately
  (`netloc.isascii()` short-circuit) and the parse succeeds in every
  version, with the path as before. -/
def pyUrlparsePath (url : String) : PyUrlparseResult :=
  let cs := removeUnsafeUrlChars url.data
  let afterScheme := dropThroughColon cs
  let netloc := (splitNetloc afterScheme).1
  let rest := (splitNetloc afterScheme).2
  if (netloc.contains '[' && !netloc.contains ']') ||
      (netloc.contains ']' && !netloc.contains '[') then
    PyUrlparseResult.valueError "Invalid IPv6 URL"
  else if netloc.contains '[' then
    PyUrlparseResult.unmodelled "bracketed-host validation"
  else if !netloc.all isAsciiChar then
    PyUrlparseResult.unmodelled "NFKC netloc check"
  else
    PyUrlparseResult.ok
      (String.mk (splitParamsLastSegment (stripQuery (stripFragment rest))))

/-- Python `s.split("/")` on the characters of a string: split at every
slash, keeping empty pieces (so the result is always nonempty). -/
def splitOnSlash : List Char → List (List Char)
  | [] => [[]]
  | c :: rest =>
    if c == '/' then [] :: splitOnSlash rest
    else
      match splitOnSlash rest with
      | [] => [[c]]
      | seg :: segs => (c :: seg) :: segs

/-- Source line 22: `parts = [p for p in parsed.path.split("/") if p]` —
the non-empty segments of a successfully parsed path. -/
def pathSegments (path : String) : List String :=
  ((splitOnSlash path.data).filter (fun p => !p.isEmpty)).map String.mk

/-- Control-flow outcome of a Python call in this embedding: it returns a
value, it raises an exception with the given message, or it reaches a
collaborator behavior this embedding leaves undecided. -/
inductive PyOutcome (α : Type)
  | returns (val : α)
  | raises (message : String)
  | unmodelled (reason : String)
deriving DecidableEq

/-- Source lines 12-31, `parse_chat_identifier(raw_identifier, topic_id_env)`.
The Python locals `identifier` (the stripped input, then possibly the first
path segment) and `topic_id` (the supplied value, then possibly the parsed
second segment) are inlined.  The `urlparse` call on line 21 can raise
`ValueError`, and *nothing catches it* — the `try: topic_id = int(parts[1])
except ValueError: pass` on lines 26-29 wraps only the `int` call — so a
`valueError` from `pyUrlparsePath` propagates as `raises`.  The `int` call
never propagates: its `ValueError` is swallowed (`pyIntParse` answering
`error` leaves the topic id at the supplied `none`); its `unmodelled`
verdict (non-ASCII digits) is passed through as an undecided outcome. -/
def parse_chat_identifier (raw_identifier : String) (topic_id_env : Option Int) :
    PyOutcome (String × Option Int) :=
  if startsWithHttp (pyStrip raw_identifier) then
    match pyUrlparsePath (pyStrip raw_identifier) with
    | PyUrlparseResult.valueError m => PyOutcome.raises m
    | PyUrlparseResult.unmodelled r => PyOutcome.unmodelled r
    | PyUrlparseResult.ok path =>
      match pathSegments path with
      | [] => PyOutcome.returns (pyStrip raw_identifier, topic_id_env)
      | [p0] => PyOutcome.returns (p0, topic_id_env)
      | p0 :: p1 :: _ =>
        match topic_id_env with
        | some t => PyOutcome.returns (p0, some t)
        | none =>
          match pyIntParse p1 with
          | PyIntResult.ok n => PyOutcome.returns (p0, some n)
          | PyIntResult.error => PyOutcome.returns (p0, none)
          | PyIntResult.unmodelled =>
              PyOutcome.unmodelled "int() digits outside the modelled ASCII set"
  else PyOutcome.returns (pyStrip raw_identifier, topic_id_env)

/-! ## Helper lemmas about the resolver -/

/-- Stripping is idempotent on character lists. -/
theorem stripChars_idem (cs : List Char) : stripChars (stripChars cs) = stripChars cs := by
  have hA : List.dropWhile isPySpace (List.dropWhile isPySpace cs) =
      List.dropWhile isPySpace cs := List.dropWhile_idempotent isPySpace cs
  have hB : List.dropWhile isPySpace (stripChars cs) = stripChars cs := by
    rcases hb : stripChars cs with _ | ⟨b, B'⟩
    · simp
    · have hpre : stripChars cs <+: List.dropWhile isPySpace cs :=
        List.rdropWhile_prefix isPySpace (List.dropWhile isPySpace cs)
      rw [hb] at hpre
      obtain ⟨t, ht⟩ := hpre
      have ht' : List.dropWhile isPySpace cs = b :: (B' ++ t) := by
        rw [← ht]; rfl
      have hbfalse : isPySpace b = false := by
        rcases hsp : isPySpace b
        · rfl
        · exfalso
          rw [ht', List.dropWhile_cons, hsp] at hA
          simp only [if_true] at hA
          have hlen := (List.dropWhile_sublist (l := B' ++ t) (p := isPySpace)).length_le
          rw [hA] at hlen
          simp at hlen
      rw [List.dropWhile_cons, hbfalse]
      simp
  calc stripChars (stripChars cs)
      = List.rdropWhile isPySpace (List.dropWhile isPySpace (stripChars cs)) := rfl
    _ = List.rdropWhile isPySpace (stripChars cs) := by rw [hB]
    _ = List.rdropWhile isPySpace
          (List.rdropWhile isPySpace (List.dropWhile isPySpace cs)) := rfl
    _ = List.rdropWhile isPySpace (List.dropWhile isPySpace cs) :=
        List.rdropWhile_idempotent isPySpace (List.dropWhile isPySpace cs)
    _ = stripChars cs := rfl

/-- Python `str.strip()` is idempotent. -/
theorem pyStrip_idem (s : String) : pyStrip (pyStrip s) = pyStrip s :=
  congrArg String.mk (stripChars_idem s.data)

/-- When the stripped input carries no `http(s)://` scheme, the resolver
returns it with the supplied topic id: the whole URL branch is skipped. -/
theorem parse_chat_identifier_no_scheme (s : String) (t : Option Int)
    (h : startsWithHttp (pyStrip s) = false) :
    parse_chat_identifier s t = PyOutcome.returns (pyStrip s, t) := by
  unfold parse_chat_identifier
  rw [h]
  rfl

/-- URL branch where `urlparse` raises: the `ValueError` propagates out of
`parse_chat_identifier` (the `try/except` wraps only the `int` call). -/
theorem parse_chat_identifier_url_raises (s : String) (t : Option Int) (m : String)
    (hurl : startsWithHttp (pyStrip s) = true)
    (hpath : pyUrlparsePath (pyStrip s) = PyUrlparseResult.valueError m) :
    parse_chat_identifier s t = PyOutcome.raises m := by
  unfold parse_chat_identifier
  rw [hurl, hpath]
  rfl

/-- URL branch with a successfully parsed path holding at least two
non-empty segments, no supplied topic id, and a second segment that parses
as an integer: the first segment becomes the identifier and the parsed
value the topic id. -/
theorem parse_chat_identifier_url_two_segments_ok (s path p0 p1 : String)
    (rest : List String) (n : Int)
    (hurl : startsWithHttp (pyStrip s) = true)
    (hpath : pyUrlparsePath (pyStrip s) = PyUrlparseResult.ok path)
    (hseg : pathSegments path = p0 :: p1 :: rest)
    (hint : pyIntParse p1 = PyIntResult.ok n) :
    parse_chat_identifier s none = PyOutcome.returns (p0, some n) := by
  simp only [parse_chat_identifier, hurl, hpath, hseg, hint, eq_self_iff_true,
    if_true]

/-- URL branch with a successfully parsed path holding at least two
non-empty segments, no supplied topic id, and a second segment on which
`int` raises: the `ValueError` is swallowed and the topic id stays
absent. -/
theorem parse_chat_identifier_url_two_segments_err (s path p0 p1 : String)
    (rest : List String)
    (hurl : startsWithHttp (pyStrip s) = true)
    (hpath : pyUrlparsePath (pyStrip s) = PyUrlparseResult.ok path)
    (hseg : pathSegments path = p0 :: p1 :: rest)
    (hint : pyIntParse p1 = PyIntResult.error) :
    parse_chat_identifier s none = PyOutcome.returns (p0, none) := by
  simp only [parse_chat_identifier, hurl, hpath, hseg, hint, eq_self_iff_true,
    if_true]

/-- URL branch with a successfully parsed path holding no non-empty
segment: `if parts:` fails and both the (stripped) identifier and the
supplied topic id pass through. -/
theorem parse_chat_identifier_url_no_segments (s : String) (t : Option Int)
    (path : String)
    (hurl : startsWithHttp (pyStrip s) = true)
    (hpath : pyUrlparsePath (pyStrip s) = PyUrlparseResult.ok path)
    (hseg : pathSegments path = []) :
    parse_chat_identifier s t = PyOutcome.returns (pyStrip s, t) := by
  simp only [parse_chat_identifier, hurl, hpath, hseg, eq_self_iff_true, if_true]

/-! ## Claims about the identifier resolver -/

/-- C2 (as stated) is false: it quantifies over *every* scheme-prefixed
input whose path shows two non-empty segments, but at `https://[/x/2` the
`urlparse` call itself raises `ValueError("Invalid IPv6 URL")` (unmatched
bracket in the netloc), which nothing in `parse_chat_identifier` catches —
the program raises instead of returning `("x", some 2)`. -/
theorem resolver_link_slug_and_topic_cex :
    parse_chat_identifier "https://[/x/2" none =
      PyOutcome.raises "Invalid IPv6 URL" ∧
    parse_chat_identifier "https://[/x/2" none ≠
      PyOutcome.returns ("x", some 2) := by decide

/-- C2 amended: for an input whose stripped form begins with an `http(s)://`
scheme, *which `urlparse` accepts* (otherwise its `ValueError` propagates),
and whose parsed path has at least two non-empty segments, with no
externally supplied topic id, `parse_chat_identifier` returns the first
segment as the identifier, and returns the second segment parsed as an
integer as the topic id when that parse succeeds, and an absent topic id
when `int` raises on the second segment (the parse failure is swallowed,
not raised). -/
theorem resolver_link_slug_and_topic (s path p0 p1 : String) (rest : List String)
    (hurl : startsWithHttp (pyStrip s) = true)
    (hpath : pyUrlparsePath (pyStrip s) = PyUrlparseResult.ok path)
    (hseg : pathSegments path = p0 :: p1 :: rest) :
    (∀ n, pyIntParse p1 = PyIntResult.ok n →
       parse_chat_identifier s none = PyOutcome.returns (p0, some n)) ∧
    (pyIntParse p1 = PyIntResult.error →
       parse_chat_identifier s none = PyOutcome.returns (p0, none)) :=
  ⟨fun n hint =>
     parse_chat_identifier_url_two_segments_ok s path p0 p1 rest n hurl hpath
       hseg hint,
   fun hint =>
     parse_chat_identifier_url_two_segments_err s path p0 p1 rest hurl hpath
       hseg hint⟩

/-- Witness for amended C2 at the concrete link `https://t.me/mychat/42`. -/
theorem resolver_link_slug_and_topic_witness :
    parse_chat_identifier "https://t.me/mychat/42" none =
      PyOutcome.returns ("mychat", some 42) :=
  (resolver_link_slug_and_topic "https://t.me/mychat/42" "/mychat/42" "mychat" "42"
    [] (by decide) (by decide) (by decide)).1 42 (by decide)

/-- C3 (as stated) is false: it promises the supplied topic id back for
*every* input string, but at `https://[/x/2` with supplied topic id 5 the
program raises `ValueError("Invalid IPv6 URL")` from `urlparse` instead of
returning anything. -/
theorem resolver_external_topic_precedence_cex :
    parse_chat_identifier "https://[/x/2" (some 5) =
      PyOutcome.raises "Invalid IPv6 URL" ∧
    parse_chat_identifier "https://[/x/2" (some 5) ≠
      PyOutcome.returns ("x", some 5) := by decide

/-- C3 amended: whenever `parse_chat_identifier` returns at all (i.e.
`urlparse` did not raise), an externally supplied topic id is returned
unchanged, whatever the input string contains: `topic_id` is only
reassigned under `topic_id is None`. -/
theorem resolver_external_topic_precedence (s : String) (n : Int) :
    ∀ ident topic,
      parse_chat_identifier s (some n) = PyOutcome.returns (ident, topic) →
        topic = some n := by
  intro ident topic h
  unfold parse_chat_identifier at h
  split at h
  · split at h
    · simp at h
    · simp at h
    · split at h <;>
        simp only [PyOutcome.returns.injEq, Prod.mk.injEq] at h <;>
        exact h.2.symm
  · simp only [PyOutcome.returns.injEq, Prod.mk.injEq] at h
    exact h.2.symm

/-- Witness for amended C3 at a link carrying a different derivable topic id:
the supplied id 7 wins over the link's 42. -/
theorem resolver_external_topic_precedence_witness :
    parse_chat_identifier "https://t.me/mychat/42" (some 7) =
      PyOutcome.returns ("mychat", some 7) ∧
    (some 7 : Option Int) = some 7 :=
  ⟨by decide,
   resolver_external_topic_precedence "https://t.me/mychat/42" 7 "mychat" (some 7)
     (by decide)⟩

/-- C6 (as stated) is false: the resolver returns the *stripped* string, not
the input string unchanged.  At input `" alice "` (which does not begin with
an http or https scheme) the returned identifier is `"alice"`. -/
theorem resolver_plain_identifier_unchanged_cex :
    startsWithHttp " alice " = false ∧
      parse_chat_identifier " alice " none = PyOutcome.returns ("alice", none) ∧
      ("alice" : String) ≠ " alice " := by decide

/-- C6 amended: for every input whose stripped form does not begin with
`http://` or `https://`, the resolver returns the whitespace-trimmed input
as the identifier and the topic id exactly as passed in. -/
theorem resolver_plain_identifier_trimmed (s : String) (t : Option Int)
    (h : startsWithHttp (pyStrip s) = false) :
    parse_chat_identifier s t = PyOutcome.returns (pyStrip s, t) :=
  parse_chat_identifier_no_scheme s t h

/-- Witness for amended C6 at a plain handle with surrounding whitespace and
a supplied topic id. -/
theorem resolver_plain_identifier_trimmed_witness :
    parse_chat_identifier " workgroup42 " (some 9) =
      PyOutcome.returns ("workgroup42", some 9) :=
  (resolver_plain_identifier_trimmed " workgroup42 " (some 9) (by decide)).trans
    (by decide)

/-- C7 (as stated) is false: `parse_chat_identifier` validates nothing.  At
the empty input the returned identifier is the empty string, violating
"identifier is never empty after trimming". -/
theorem chat_reference_invariant_cex :
    parse_chat_identifier "" none = PyOutcome.returns ("", none) := by decide

/-- C7 amended: the resolver enforces no invariant of its own; the stated
invariant holds only conditionally.  For inputs whose stripped form is
non-empty and carries no `http(s)://` scheme, and whose supplied topic id is
absent or positive, the resolver returns a pair whose identifier (already
whitespace-trimmed) is non-empty after trimming and whose topic id, when
present, is positive. -/
theorem chat_reference_invariant_conditional (s : String) (t : Option Int)
    (hne : pyStrip s ≠ "")
    (hurl : startsWithHttp (pyStrip s) = false)
    (ht : t = none ∨ ∃ k, t = some k ∧ 0 < k) :
    ∃ ident topic, parse_chat_identifier s t = PyOutcome.returns (ident, topic) ∧
      pyStrip ident ≠ "" ∧ ∀ m, topic = some m → 0 < m := by
  refine ⟨pyStrip s, t, parse_chat_identifier_no_scheme s t hurl, ?_, ?_⟩
  · rw [pyStrip_idem]
    exact hne
  · intro m hm
    rcases ht with rfl | ⟨k, rfl, hk⟩
    · exact absurd hm (by simp)
    · have hkm : k = m := by injection hm
      exact hkm ▸ hk

/-- Witness for amended C7 at a concrete handle and positive topic id. -/
theorem chat_reference_invariant_conditional_witness :
    ∃ ident topic,
      parse_chat_identifier "somegroup" (some 3) = PyOutcome.returns (ident, topic) ∧
        pyStrip ident ≠ "" ∧ ∀ m, topic = some m → 0 < m :=
  chat_reference_invariant_conditional "somegroup" (some 3) (by decide) (by decide)
    (Or.inr ⟨3, rfl, by decide⟩)

/-- C8 (as stated) is false: `parse_chat_identifier` is *not* total — at
`https://]` the `urlparse` call raises `ValueError("Invalid IPv6 URL")`
(unmatched bracket in the netloc) and the `try/except ValueError`, which
wraps only `int(parts[1])`, does not catch it. -/
theorem resolver_total_graceful_cex :
    parse_chat_identifier "https://]" none =
      PyOutcome.raises "Invalid IPv6 URL" := by decide

/-- C8 amended: `parse_chat_identifier` is total except that a `ValueError`
raised by `urlparse` on a scheme-prefixed input propagates (the
`try/except` wraps only `int(parts[1])`).  In detail: (1) every non-scheme
input returns a pair; (2) an input whose URL `urlparse` accepts never
raises; (3) on a scheme-prefixed input whose netloc fails `urlsplit`
validation the `ValueError` propagates; (4) identifier-parse anomalies
still degrade gracefully — a second segment on which `int` raises yields
an absent topic id rather than a failure. -/
theorem resolver_total_graceful :
    (∀ s t, startsWithHttp (pyStrip s) = false →
       ∃ ident topic, parse_chat_identifier s t = PyOutcome.returns (ident, topic)) ∧
    (∀ s t path m, pyUrlparsePath (pyStrip s) = PyUrlparseResult.ok path →
       parse_chat_identifier s t ≠ PyOutcome.raises m) ∧
    (∀ s t m, startsWithHttp (pyStrip s) = true →
       pyUrlparsePath (pyStrip s) = PyUrlparseResult.valueError m →
       parse_chat_identifier s t = PyOutcome.raises m) ∧
    ∀ s path p0 p1 rest, startsWithHttp (pyStrip s) = true →
      pyUrlparsePath (pyStrip s) = PyUrlparseResult.ok path →
      pathSegments path = p0 :: p1 :: rest →
      pyIntParse p1 = PyIntResult.error →
      parse_chat_identifier s none = PyOutcome.returns (p0, none) := by
  refine ⟨?_, ?_, ?_, ?_⟩
  · intro s t hurl
    exact ⟨pyStrip s, t, parse_chat_identifier_no_scheme s t hurl⟩
  · intro s t path m hpath
    rcases hurl : startsWithHttp (pyStrip s)
    · rw [parse_chat_identifier_no_scheme s t hurl]
      simp
    · unfold parse_chat_identifier
      simp only [hurl, if_true, hpath]
      cases hseg : pathSegments path with
      | nil => simp
      | cons p0 tail =>
        cases tail with
        | nil => simp
        | cons p1 rest =>
          cases t with
          | some t0 => simp
          | none => cases hint : pyIntParse p1 <;> simp [hint]
  · intro s t m hurl hpath
    exact parse_chat_identifier_url_raises s t m hurl hpath
  · intro s path p0 p1 rest hurl hpath hseg hfail
    exact parse_chat_identifier_url_two_segments_err s path p0 p1 rest hurl hpath
      hseg hfail

/-- Witness for amended C8 at the link `https://t.me/mychat/zzz`, whose
second segment is not a valid integer. -/
theorem resolver_total_graceful_witness :
    parse_chat_identifier "https://t.me/mychat/zzz" none =
      PyOutcome.returns ("mychat", none) :=
  resolver_total_graceful.2.2.2 "https://t.me/mychat/zzz" "/mychat/zzz" "mychat"
    "zzz" [] (by decide) (by decide) (by decide) (by decide)

/-- C10 (as stated) is false: it quantifies over *every* scheme-prefixed
input whose URL path has no non-empty segment, but at `https://[` the
`urlparse` call raises `ValueError("Invalid IPv6 URL")` (unmatched bracket
in the netloc) instead of returning the trimmed URL as the identifier. -/
theorem resolver_bare_domain_link_cex :
    parse_chat_identifier "https://[" none =
      PyOutcome.raises "Invalid IPv6 URL" ∧
    parse_chat_identifier "https://[" none ≠
      PyOutcome.returns ("https://[", none) := by decide

/-- C10 amended: for an input whose stripped form begins with an
`http(s)://` scheme, *which `urlparse` accepts* (otherwise its `ValueError`
propagates), and whose parsed path has no non-empty segment, the whole
stripped URL (scheme included) is returned as the identifier and the topic
id passes through. -/
theorem resolver_bare_domain_link (s : String) (t : Option Int) (path : String)
    (hurl : startsWithHttp (pyStrip s) = true)
    (hpath : pyUrlparsePath (pyStrip s) = PyUrlparseResult.ok path)
    (hseg : pathSegments path = []) :
    parse_chat_identifier s t = PyOutcome.returns (pyStrip s, t) :=
  parse_chat_identifier_url_no_segments s t path hurl hpath hseg

/-- Witness for amended C10 at the bare domain link `https://t.me/`. -/
theorem resolver_bare_domain_link_witness :
    parse_chat_identifier "https://t.me/" (some 5) =
      PyOutcome.returns ("https://t.me/", some 5) :=
  (resolver_bare_domain_link "https://t.me/" (some 5) "/" (by decide)
    (by decide) (by decide)).trans (by decide)
/-! ## The message fetcher/filter (`scrape`, source lines 34-83) -/

/-- The `.sender` attribute of a message: only its `.username` is read
(source line 73); `none` models a `None` username. -/
structure Sender where
  username : Option String
deriving DecidableEq

/-- An item yielded by the collaborator's `iter_messages` iterator.
`isMessage` is the `isinstance(msg, Message)` test of line 60; datetimes are
abstracted to integer timestamps ordered by `<` (the source only compares
them with the cutoff); `action` is `None` (`none`) for ordinary messages and
non-`None` for service messages; `hasSenderIdAttr` is the
`hasattr(msg, "sender_id")` test of line 72. -/
structure Msg where
  isMessage : Bool
  id : Int
  date : Option Int
  hasSenderIdAttr : Bool
  sender_id : Option Int
  sender : Option Sender
  message : Option String
  reply_to_msg_id : Option Int
  action : Option String
deriving DecidableEq

/-- The JSON value a Python object serializes to under `json.dump`: the
point of this type is to distinguish the JSON number `1` (emitted for the
Python int `1`) from the JSON literal `true` (emitted for the Python bool
`True`). -/
inductive JVal
  | jnull
  | jbool (b : Bool)
  | jint (n : Int)
  | jstr (s : String)
deriving DecidableEq

/-- Python `msg.message or ""` (line 74): the empty string when the text is
`None` or empty (falsy), the text itself otherwise. -/
def pyOrEmptyString (o : Option String) : String :=
  match o with
  | none => ""
  | some s => if s = "" then "" else s

/-- One element of `rows` (source lines 67-78).  `date` holds the timestamp
whose ISO rendering the source emits (the loop guarantees it is present);
`is_service` holds the serialized JSON value of `1 if msg.action is not
None else 0` — a Python *int*, hence a JSON number. -/
structure Row where
  chat_identifier : String
  message_id : Int
  date : Int
  sender_id : Option Int
  sender_username : Option String
  text : String
  reply_to_msg_id : Option Int
  is_service : JVal
deriving DecidableEq

/-- The dict built for one retained message, source lines 67-78. -/
def projectRow (chat_identifier : String) (m : Msg) : Row :=
  { chat_identifier := chat_identifier
    message_id := m.id
    date := m.date.getD 0
    sender_id := if m.hasSenderIdAttr then m.sender_id else none
    sender_username := m.sender.bind Sender.username
    text := pyOrEmptyString m.message
    reply_to_msg_id := m.reply_to_msg_id
    is_service := if m.action.isSome then JVal.jint 1 else JVal.jint 0 }

/-- The `async for` loop of source lines 59-78 applied to the sequence of
items the collaborator yields: skip non-`Message` items (`continue`, line
61) and items without a date (line 63), stop the whole iteration at the
first date before the cutoff (`break`, line 65), and append the projected
row for every other item. -/
def fetchRows (chat_identifier : String) (cutoff : Int) : List Msg → List Row
  | [] => []
  | m :: rest =>
    if m.isMessage = false then fetchRows chat_identifier cutoff rest
    else
      match m.date with
      | none => fetchRows chat_identifier cutoff rest
      | some d =>
        if d < cutoff then []
        else projectRow chat_identifier m :: fetchRows chat_identifier cutoff rest

/-- Outcome of the collaborator's `get_entity` call: success, one of the
three named resolution errors imported on source line 8, or any other
exception. -/
inductive GetEntityResult
  | ok (entity : Int)
  | usernameInvalid (cause : String)
  | usernameNotOccupied (cause : String)
  | channelPrivate (cause : String)
  | otherError (cause : String)
deriving DecidableEq

/-- Network side effects the error path can perform. -/
inductive NetAction
  | disconnect
deriving DecidableEq

/-- Control-flow outcome of the `try/except` around `get_entity`. -/
inductive ResolveOutcome
  | proceed (entity : Int)
  | runtimeError (message : String)
  | uncaught (cause : String)
deriving DecidableEq

/-- Python `repr` of a string as used by the `{chat_identifier!r}` format
(line 49), modelled for identifiers free of quotes, backslashes and control
characters: the string between single quotes. -/
def pyReprString (s : String) : String :=
  "'" ++ s ++ "'"

/-- The message of the `RuntimeError` raised on line 49:
`f"Unable to access chat {chat_identifier!r}: {e}"`. -/
def accessErrorMessage (chat_identifier : String) (cause : String) : String :=
  "Unable to access chat " ++ pyReprString chat_identifier ++ ": " ++ cause

/-- Source lines 45-49: the `try/except (UsernameInvalidError,
UsernameNotOccupiedError, ChannelPrivateError)` around `get_entity`,
returning the network actions performed by the handler and the control-flow
outcome.  Any other exception is not caught there, so no disconnect is
attempted and the exception propagates. -/
def resolveEntityStep (chat_identifier : String) (r : GetEntityResult) :
    List NetAction × ResolveOutcome :=
  match r with
  | .ok e => ([], .proceed e)
  | .usernameInvalid c =>
      ([.disconnect], .runtimeError (accessErrorMessage chat_identifier c))
  | .usernameNotOccupied c =>
      ([.disconnect], .runtimeError (accessErrorMessage chat_identifier c))
  | .channelPrivate c =>
      ([.disconnect], .runtimeError (accessErrorMessage chat_identifier c))
  | .otherError c => ([], .uncaught c)

/-- The three exception classes named in the `except` clause on line 47. -/
def isNamedResolutionError : GetEntityResult → Bool
  | .usernameInvalid _ => true
  | .usernameNotOccupied _ => true
  | .channelPrivate _ => true
  | _ => false

/-- The `reverse` keyword argument the source passes to `iter_messages` on
line 59. -/
def scrape_reverse_flag : Bool := false

/-- Modelled from the spec: the pagination collaborator of sections 4.2-4.3
(the Telegram client library) is external to the repository.  Per that
library's documented contract for `iter_messages` — which section 4.3's
cutoff-break precondition ("the sequence is monotonically ordered by time")
and the testable property's "strictly decreasing timestamps" presuppose —
`reverse=True` yields the chronological history oldest first, and
`reverse=False` (the default) yields it newest first.  `history` is the
chat history in chronological (oldest-first) order. -/
def iterMessagesYield (reverse : Bool) (history : List Msg) : List Msg :=
  if reverse then history else history.reverse

/-- A genuine message carrying only a date, used as concrete input. -/
def msgAt (d : Int) (i : Int) : Msg :=
  { isMessage := true
    id := i
    date := some d
    hasSenderIdAttr := true
    sender_id := none
    sender := none
    message := none
    reply_to_msg_id := none
    action := none }

/-! ## Helper lemmas about the fetcher -/

/-- Unfolding `fetchRows` at a genuine, dated message. -/
theorem fetchRows_cons_genuine (chat_identifier : String) (cutoff : Int) (m : Msg)
    (rest : List Msg) (hmsg : m.isMessage = true) (d : Int) (hd : m.date = some d) :
    fetchRows chat_identifier cutoff (m :: rest) =
      if d < cutoff then []
      else projectRow chat_identifier m :: fetchRows chat_identifier cutoff rest := by
  conv_lhs => unfold fetchRows
  rw [hmsg, hd]
  simp

/-- Both halves of the error-message shape: it contains the chat identifier
and ends with the underlying cause. -/
theorem accessErrorMessage_parts (chat_identifier cause : String) :
    (∃ before after,
        accessErrorMessage chat_identifier cause = before ++ (chat_identifier ++ after)) ∧
    ∃ before2, accessErrorMessage chat_identifier cause = before2 ++ cause := by
  constructor
  · refine ⟨"Unable to access chat " ++ "'", "'" ++ (": " ++ cause), ?_⟩
    unfold accessErrorMessage pyReprString
    simp only [String.append_assoc]
  · exact ⟨"Unable to access chat " ++ pyReprString chat_identifier ++ ": ", rfl⟩

/-! ## Claims about the fetcher and the error path -/

/-- C1: on a sequence of genuine, dated messages with strictly decreasing
timestamps, the collected rows are exactly the projections of the prefix of
messages whose timestamp is at least the cutoff, in the order supplied
(first conjunct: the sequence splits into an in-window prefix and an
out-of-window suffix, and the rows are the projection of that prefix); and
iteration stops entirely at the first message whose timestamp is earlier
than the cutoff — the result does not depend on anything yielded after it
(second conjunct). -/
theorem scrape_collects_window_rows (chat_identifier : String) (cutoff : Int) :
    (∀ msgs : List Msg,
       (∀ m ∈ msgs, m.isMessage = true ∧ m.date.isSome) →
       List.Chain' (fun a b : Int => a > b) (msgs.filterMap Msg.date) →
       ∃ pre post, msgs = pre ++ post ∧
         (∀ m ∈ pre, ∀ d, m.date = some d → cutoff ≤ d) ∧
         (∀ m ∈ post, ∀ d, m.date = some d → d < cutoff) ∧
         fetchRows chat_identifier cutoff msgs = pre.map (projectRow chat_identifier)) ∧
    ∀ pre (m : Msg) t₁ t₂,
      (∀ x ∈ pre, x.isMessage = true ∧ ∃ d, x.date = some d ∧ cutoff ≤ d) →
      m.isMessage = true → (∃ d, m.date = some d ∧ d < cutoff) →
      fetchRows chat_identifier cutoff (pre ++ m :: t₁) =
        fetchRows chat_identifier cutoff (pre ++ m :: t₂) := by
  constructor
  · intro msgs
    induction msgs with
    | nil =>
      intro _ _
      exact ⟨[], [], rfl, by simp, by simp, rfl⟩
    | cons m rest ih =>
      intro hall hchain
      obtain ⟨hmsg, hdate⟩ := hall m (List.mem_cons_self m rest)
      obtain ⟨d, hd⟩ := Option.isSome_iff_exists.mp hdate
      have hfm : (m :: rest).filterMap Msg.date = d :: rest.filterMap Msg.date := by
        simp [List.filterMap_cons, hd]
      rw [hfm] at hchain
      by_cases hcut : d < cutoff
      · refine ⟨[], m :: rest, rfl, by simp, ?_, ?_⟩
        · intro x hx dx hdx
          rcases List.mem_cons.mp hx with rfl | hx'
          · rw [hd] at hdx
            injection hdx with h
            omega
          · have hdxmem : dx ∈ rest.filterMap Msg.date :=
              List.mem_filterMap.mpr ⟨x, hx', hdx⟩
            have hpw : List.Pairwise (fun a b : Int => a > b)
                (d :: rest.filterMap Msg.date) :=
              List.chain'_iff_pairwise.mp hchain
            have hlt : d > dx := (List.pairwise_cons.mp hpw).1 dx hdxmem
            omega
        · rw [fetchRows_cons_genuine chat_identifier cutoff m rest hmsg d hd,
              if_pos hcut]
          rfl
      · obtain ⟨pre, post, hsplit, hpre, hpost, hrows⟩ :=
          ih (fun x hx => hall x (List.mem_cons_of_mem m hx)) hchain.tail
        refine ⟨m :: pre, post, by rw [hsplit, List.cons_append], ?_, hpost, ?_⟩
        · intro x hx dx hdx
          rcases List.mem_cons.mp hx with rfl | hx'
          · rw [hd] at hdx
            injection hdx with h
            omega
          · exact hpre x hx' dx hdx
        · rw [fetchRows_cons_genuine chat_identifier cutoff m rest hmsg d hd,
              if_neg hcut, hrows]
          rfl
  · intro pre
    induction pre with
    | nil =>
      intro m t₁ t₂ _ hmsg hdate
      obtain ⟨d, hd, hcut⟩ := hdate
      rw [show ([] : List Msg) ++ m :: t₁ = m :: t₁ from rfl,
          show ([] : List Msg) ++ m :: t₂ = m :: t₂ from rfl,
          fetchRows_cons_genuine chat_identifier cutoff m t₁ hmsg d hd,
          fetchRows_cons_genuine chat_identifier cutoff m t₂ hmsg d hd,
          if_pos hcut, if_pos hcut]
    | cons x pre' ih =>
      intro m t₁ t₂ hpre hmsg hdate
      obtain ⟨hxmsg, dx, hdx, hxcut⟩ := hpre x (List.mem_cons_self x pre')
      rw [show (x :: pre') ++ m :: t₁ = x :: (pre' ++ m :: t₁) from rfl,
          show (x :: pre') ++ m :: t₂ = x :: (pre' ++ m :: t₂) from rfl,
          fetchRows_cons_genuine chat_identifier cutoff x _ hxmsg dx hdx,
          fetchRows_cons_genuine chat_identifier cutoff x _ hxmsg dx hdx,
          if_neg (by omega), if_neg (by omega)]
      exact congrArg _ (ih m t₁ t₂ (fun y hy => hpre y (List.mem_cons_of_mem x hy))
        hmsg hdate)

/-- Witness for C1: with cutoff 5 and genuine messages dated 9, 6, 3, the
rows collected do not depend on what follows the first out-of-window
message (dated 3), exercising the early `break`. -/
theorem scrape_collects_window_rows_witness :
    fetchRows "mychat" 5 [msgAt 9 1, msgAt 6 2, msgAt 3 3, msgAt 0 4] =
      fetchRows "mychat" 5 [msgAt 9 1, msgAt 6 2, msgAt 3 3] := by
  have h := (scrape_collects_window_rows "mychat" 5).2 [msgAt 9 1, msgAt 6 2]
    (msgAt 3 3) [msgAt 0 4] []
    (by
      intro x hx
      rcases List.mem_cons.mp hx with rfl | hx'
      · exact ⟨rfl, 9, rfl, by decide⟩
      · rcases List.mem_cons.mp hx' with rfl | hx''
        · exact ⟨rfl, 6, rfl, by decide⟩
        · cases hx'')
    rfl ⟨3, rfl, by decide⟩
  exact h

/-- C4: whenever `get_entity` fails with one of the three named causes, the
handler performs exactly one disconnect and produces exactly one
`RuntimeError` whose message names the offending chat identifier and the
underlying cause; any other exception is not caught at this point — no
disconnect is attempted and it propagates unchanged. -/
theorem resolve_failure_disconnect_and_error (chat_identifier : String)
    (r : GetEntityResult) :
    (isNamedResolutionError r = true →
       (resolveEntityStep chat_identifier r).1 = [NetAction.disconnect] ∧
       ∃ cause,
         (resolveEntityStep chat_identifier r).2 =
           ResolveOutcome.runtimeError (accessErrorMessage chat_identifier cause) ∧
         (∃ before after,
             accessErrorMessage chat_identifier cause =
               before ++ (chat_identifier ++ after)) ∧
         ∃ before2, accessErrorMessage chat_identifier cause = before2 ++ cause) ∧
    ∀ c, r = GetEntityResult.otherError c →
      (resolveEntityStep chat_identifier r).1 = [] ∧
      (resolveEntityStep chat_identifier r).2 = ResolveOutcome.uncaught c := by
  constructor
  · intro hnamed
    cases r with
    | ok e => exact absurd hnamed (by simp [isNamedResolutionError])
    | otherError c => exact absurd hnamed (by simp [isNamedResolutionError])
    | usernameInvalid c =>
      exact ⟨rfl, c, rfl, accessErrorMessage_parts chat_identifier c⟩
    | usernameNotOccupied c =>
      exact ⟨rfl, c, rfl, accessErrorMessage_parts chat_identifier c⟩
    | channelPrivate c =>
      exact ⟨rfl, c, rfl, accessErrorMessage_parts chat_identifier c⟩
  · intro c hr
    subst hr
    exact ⟨rfl, rfl⟩

/-- Witness for C4 at a private channel. -/
theorem resolve_failure_disconnect_and_error_witness :
    (resolveEntityStep "mychat" (GetEntityResult.channelPrivate "private channel")).1 =
      [NetAction.disconnect] :=
  ((resolve_failure_disconnect_and_error "mychat"
      (GetEntityResult.channelPrivate "private channel")).1 (by decide)).1

/-- A concrete service message: a pinned-message notification. -/
def serviceActionMsg : Msg :=
  { msgAt 10 1 with action := some "MessageActionPinMessage" }

/-- C5 (as stated) is false: the source computes `1 if msg.action is not
None else 0`, a Python *int*, so the record field is the JSON number `1`,
not the boolean literal `true`.  Concretely, for a message with a non-null
action, `is_service` is `1`, which is not the JSON boolean `true`. -/
theorem record_is_service_not_boolean_cex :
    (projectRow "mychat" serviceActionMsg).is_service = JVal.jint 1 ∧
      (projectRow "mychat" serviceActionMsg).is_service ≠ JVal.jbool true := by decide

/-- C5 amended: for every retained message, the record's `is_service` field
is the integer 1 (a JSON number, not a boolean) iff the message's `action`
field is non-null, and the integer 0 otherwise; and the record's `text`
field is the empty string when the message has no text. -/
theorem record_is_service_int_and_text_empty (chat_identifier : String) (m : Msg) :
    ((projectRow chat_identifier m).is_service = JVal.jint 1 ↔ m.action ≠ none) ∧
    ((projectRow chat_identifier m).is_service = JVal.jint 0 ↔ m.action = none) ∧
    (m.message = none → (projectRow chat_identifier m).text = "") := by
  refine ⟨?_, ?_, ?_⟩
  · cases hact : m.action <;> simp [projectRow, hact]
  · cases hact : m.action <;> simp [projectRow, hact]
  · intro hmsg
    simp [projectRow, pyOrEmptyString, hmsg]

/-- Witness for amended C5 at a message with no text and no action. -/
theorem record_is_service_int_and_text_empty_witness :
    (projectRow "mychat" (msgAt 10 1)).text = "" :=
  (record_is_service_int_and_text_empty "mychat" (msgAt 10 1)).2.2 rfl

/-- C9 (as stated) is false: the source requests `reverse=False`, the
collaborator's default *newest-first* order.  Concretely, for a
chronological two-message history the yielded sequence is the newer message
first, whose date sequence `[2, 1]` is not ascending (not oldest to
newest). -/
theorem fetch_order_oldest_first_cex :
    iterMessagesYield scrape_reverse_flag [msgAt 1 100, msgAt 2 101] =
      [msgAt 2 101, msgAt 1 100] ∧
    List.map Msg.date
        (iterMessagesYield scrape_reverse_flag [msgAt 1 100, msgAt 2 101]) =
      [some 2, some 1] ∧
    ¬ List.Chain' (fun a b : Int => a < b) [(2 : Int), 1] := by
  refine ⟨rfl, rfl, fun h => ?_⟩
  have h2 := List.chain'_pair.mp h
  omega

/-- C9 amended: the fetcher requests pagination with `reverse=False`, the
collaborator's default *newest-first* order, and therefore iterates the
yielded messages newest to oldest: on a chronologically ascending history
the yielded date sequence is strictly descending (which is exactly the
order the cutoff `break` of C1 relies on). -/
theorem fetch_order_newest_first (history : List Msg)
    (hchron : List.Chain' (fun a b : Int => a < b) (history.filterMap Msg.date)) :
    iterMessagesYield scrape_reverse_flag history = history.reverse ∧
    List.Chain' (fun a b : Int => a > b)
      ((iterMessagesYield scrape_reverse_flag history).filterMap Msg.date) := by
  refine ⟨rfl, ?_⟩
  show List.Chain' _ (history.reverse.filterMap Msg.date)
  rw [List.filterMap_reverse]
  exact List.chain'_reverse.mpr hchron

/-- Witness for amended C9 on a concrete two-message chronological
history. -/
theorem fetch_order_newest_first_witness :
    iterMessagesYield scrape_reverse_flag [msgAt 1 100, msgAt 2 101] =
      [msgAt 2 101, msgAt 1 100] :=
  (fetch_order_newest_first [msgAt 1 100, msgAt 2 101]
    (show List.Chain' (fun a b : Int => a < b) [(1 : Int), 2] from
      List.chain'_pair.mpr (by omega))).1.trans rfl
